import Mathlib

set_option maxRecDepth 400000

/-!
# Formal model of the x402 payment SDK (fast-x402 provider + x402-langchain client)

Shallow embedding of the payment-protocol core of the repository:

* `fast_x402/verification.py` — `verify_eip712_signature` (typed-data message
  construction and signer recovery) and `verify_payment_requirements`
  (ordered field checks).
* `fast_x402/provider.py` — `X402Provider.verify_payment` (cache lookup,
  requirement checks, signature check, result caching).
* `fast_x402/middleware.py` — `X402Middleware.dispatch` (header handling and
  error surfacing).
* `x402_langchain/client.py` — `X402Client` (spending limits, payment
  authorization construction, `fetch_with_payment` control flow).

Modelling conventions:

* Python `int` is `Int`; unix timestamps are `Int` (provider side, which uses
  `int(time.time())`) or `ℚ` (client side, which uses the float `time.time()`).
* A Python decimal amount string is modelled by its exact rational value,
  carried as an explicit integer fraction `Frac` (numerator/denominator,
  denominator positive); only the value of the string is ever consumed by
  the code under study.
* Python `float` arithmetic on the client's spend counters and clock values
  is modelled with exact rationals; the control-flow and invariant claims
  proved about them do not depend on binary64 rounding.  The one claim that
  is about binary64 rounding — the amount-to-minor-unit conversion
  `Web3.to_wei(float(amount), "mwei")` — uses an explicit binary64 model
  (`roundB64F`, `shortestReprF`, `toWeiMwei` below).
* Python `str.lower()` is modelled on the ASCII range (`lowerStr`);
  addresses, token identifiers and scheme names in this protocol are
  hex/ASCII strings.
* External collaborators are parameters: ECDSA recovery
  (`recover : EIP712Message → String → String`), the client's signer
  (`sign : EIP712Message → String`), `pydantic` JSON parsing of the
  `X-Payment` header (`parse : String → Option PaymentData`), and the HTTP
  round trips of `fetch_with_payment` (given as the observed statuses and
  parsed bodies).
-/

namespace X402

/-! ## Exact fractions

Unnormalized integer fractions; every constructor used by the model keeps
the denominator positive.  Comparisons cross-multiply, so normalization is
never needed. -/

/-- An exact rational `num / den`, `den > 0` throughout the modelled domain. -/
structure Frac where
  num : Int
  den : Int
deriving DecidableEq

/-- `x ≤ y` for positive-denominator fractions. -/
def bleF (x y : Frac) : Bool := decide (x.num * y.den ≤ y.num * x.den)

/-- `x < y` for positive-denominator fractions. -/
def bltF (x y : Frac) : Bool := decide (x.num * y.den < y.num * x.den)

/-- Value equality for positive-denominator fractions. -/
def beqF (x y : Frac) : Bool := decide (x.num * y.den = y.num * x.den)

/-- `x * 2 ^ s` for integer `s`. -/
def mulPow2 (x : Frac) (s : Int) : Frac :=
  if 0 ≤ s then ⟨x.num * 2 ^ s.toNat, x.den⟩ else ⟨x.num, x.den * 2 ^ (-s).toNat⟩

/-- `x * 10 ^ s` for integer `s`. -/
def mulPow10 (x : Frac) (s : Int) : Frac :=
  if 0 ≤ s then ⟨x.num * 10 ^ s.toNat, x.den⟩ else ⟨x.num, x.den * 10 ^ (-s).toNat⟩

/-- `2 ^ e` as a fraction. -/
def pow2F (e : Int) : Frac := mulPow2 ⟨1, 1⟩ e

/-- `10 ^ e` as a fraction. -/
def pow10F (e : Int) : Frac := mulPow10 ⟨1, 1⟩ e

/-- `⌊x⌋` for a positive-denominator fraction. -/
def floorF (x : Frac) : Int := Int.fdiv x.num x.den

/-- The rational value of a fraction (used only in specification
statements). -/
def Frac.toRat (x : Frac) : ℚ := (x.num : ℚ) / (x.den : ℚ)

/-- Round a fraction to the nearest integer, ties to even. -/
def roundHalfEvenF (x : Frac) : Int :=
  let f := Int.fdiv x.num x.den
  let r2 := 2 * (x.num - f * x.den)
  if r2 < x.den then f
  else if x.den < r2 then f + 1
  else if f % 2 = 0 then f else f + 1

/-! ## Binary64 / `Web3.to_wei` model

`verification.py:103` and `client.py:142` both convert a decimal amount
string with `Web3.to_wei(float(amount), "mwei")`:

* `float(s)` parses the decimal string to the nearest IEEE-754 binary64
  value (round to nearest, ties to even);
* `eth_utils.to_wei` with a `float` argument multiplies the decimal value of
  `str(number)` — the shortest decimal string that round-trips through the
  binary64 value — by the `mwei` unit `10^6` and truncates with `int(...)`.

A binary64 value is represented by its exact rational value.  The model
covers the nonnegative normal range (every amount exercised by the claims);
zero maps to zero; subnormal/overflow inputs are outside the modelled
domain. -/

/-- `⌊log₂ q⌋` for positive `q`, searched over the exponent range of the
modelled domain (`2 ^ -100` to `2 ^ 100`).  Returns `0` outside the range. -/
def floorLog2F (q : Frac) : Int :=
  match (List.range 201).find? (fun n =>
      bleF (pow2F ((n : Int) - 100)) q && bltF q (pow2F ((n : Int) - 99))) with
  | some n => (n : Int) - 100
  | none => 0

/-- `⌊log₁₀ q⌋` for positive `q`, searched over `10 ^ -60` to `10 ^ 60`. -/
def floorLog10F (q : Frac) : Int :=
  match (List.range 121).find? (fun n =>
      bleF (pow10F ((n : Int) - 60)) q && bltF q (pow10F ((n : Int) - 59))) with
  | some n => (n : Int) - 60
  | none => 0

/-- IEEE-754 binary64 rounding of a nonnegative fraction (round to nearest,
ties to even) in the normal range: the value is scaled so the significand
lies in `[2^52, 2^53)` and rounded there. -/
def roundB64F (q : Frac) : Frac :=
  if q.num = 0 then ⟨0, 1⟩
  else
    let s : Int := floorLog2F q - 52
    mulPow2 ⟨roundHalfEvenF (mulPow2 q (-s)), 1⟩ s

/-- The `k`-significant-digit decimal value nearest to the positive value
`d` (ties to even): `d` rounded on the decimal grid
`10 ^ (⌊log₁₀ d⌋ - k + 1)`. -/
def nearestDecF (d : Frac) (k : Nat) : Frac :=
  let s : Int := floorLog10F d - (k : Int) + 1
  mulPow10 ⟨roundHalfEvenF (mulPow10 d (-s)), 1⟩ s

/-- The value of `str(x)` for a binary64 value `x` (given by its exact
rational value `d`): the shortest decimal that parses back to the same
binary64 value, searched from 1 to 17 significant digits.  Python's `repr`
selects, at the minimal round-tripping length, the candidate nearest to
`d`; every concrete value this development evaluates it at is tie-free. -/
def shortestReprF (d : Frac) : Frac :=
  match (List.range 17).find? (fun i => beqF (roundB64F (nearestDecF d (i + 1))) d) with
  | some i => nearestDecF d (i + 1)
  | none => d

/-- Model of `Web3.to_wei(float(s), "mwei")` where the decimal string `s`
has nonnegative value `q`: binary64-parse, take the value of the shortest
round-tripping decimal (`str`), multiply by the `mwei` unit `10^6`, and
truncate to an integer. -/
def toWeiMwei (q : Frac) : Int :=
  floorF (mulPow10 (shortestReprF (roundB64F q)) 6)

/-- `required_amount_wei` as computed by the verifier
(`verification.py:103`): `Web3.to_wei(float(required_amount), "mwei")`. -/
def requiredAmountWei (amount : Frac) : Int := toWeiMwei amount

/-- `value_wei` as computed by the client
(`client.py:142`): `Web3.to_wei(float(requirement.amount), "mwei")`. -/
def clientValueWei (amount : Frac) : Int := toWeiMwei amount

/-! ## ASCII lowercase (Python `str.lower()` on hex/ASCII identities) -/

/-- ASCII lowercase of one character. -/
def lowerChar (c : Char) : Char :=
  if 'A' ≤ c ∧ c ≤ 'Z' then Char.ofNat (c.toNat + 32) else c

/-- ASCII lowercase of a string (`str.lower()` on the ASCII identities this
protocol carries). -/
def lowerStr (s : String) : String := ⟨s.data.map lowerChar⟩

/-! ## Data model (`fast_x402/models.py`, `x402_langchain/models.py`)

The two packages declare structurally identical `PaymentRequirement`
models (`amount, token, recipient, chain_id/chainId, nonce,
expires_at/expiresAt, scheme`), so one Lean structure serves both.  The
wire `value` of a payment is a decimal-integer string consumed only
through `int(value)`; it is carried directly as its integer value. -/

/-- `PaymentRequirement` — the 402 response body. -/
structure PaymentRequirement where
  amount : Frac
  token : String
  recipient : String
  chain_id : Int
  nonce : String
  expires_at : Int
  scheme : String
deriving DecidableEq

/-- `PaymentData` (`fast_x402/models.py`) — the parsed `X-Payment` header. -/
structure PaymentData where
  from_address : String
  to_addr : String
  value : Int
  token : String
  chain_id : Int
  nonce : String
  valid_before : Int
  signature : String
deriving DecidableEq

/-- `PaymentAuthorization` (`x402_langchain/models.py`) — the client-side
signed authorization.  Its field set matches `PaymentData`, but its
pydantic aliases differ: it declares `from`, `chainId` and `validBefore`,
while `PaymentData` declares only `from` (see `to_header` and
`paymentDataValidate` below for the wire consequences). -/
structure PaymentAuthorization where
  from_address : String
  to_addr : String
  value : Int
  token : String
  chain_id : Int
  nonce : String
  valid_before : Int
  signature : String
deriving DecidableEq

/-- `PaymentVerification` (`fast_x402/models.py`). -/
structure PaymentVerification where
  valid : Bool
  transaction_hash : String
deriving DecidableEq

/-! ## Error taxonomy (`fast_x402/exceptions.py`)

One constructor per distinct raise site reached by
`X402Provider.verify_payment`; `code`/`statusCode` reproduce the
`X402Error.code` / `X402Error.status_code` carried by each Python
exception (an unknown scheme raises `ValueError`, which the provider's
generic handler wraps into `InvalidPaymentError`, hence code
`INVALID_PAYMENT`, status 400). -/

/-- The distinct failure outcomes of payment verification. -/
inductive VerifyError where
  | paymentExpired
  | recipientMismatch
  | tokenMismatch
  | chainMismatch
  | amountMismatch
  | signatureInvalid
  | customValidationFailed
  | unknownScheme
deriving DecidableEq

/-- The `X402Error.code` string of each failure. -/
def VerifyError.code : VerifyError → String
  | .paymentExpired => "PAYMENT_EXPIRED"
  | .recipientMismatch => "INVALID_PAYMENT"
  | .tokenMismatch => "INVALID_TOKEN"
  | .chainMismatch => "INVALID_CHAIN"
  | .amountMismatch => "INVALID_PAYMENT"
  | .signatureInvalid => "INVALID_SIGNATURE"
  | .customValidationFailed => "CUSTOM_VALIDATION_FAILED"
  | .unknownScheme => "INVALID_PAYMENT"

/-- The HTTP status carried by each failure (`InvalidPaymentError` and its
subclasses all carry 400). -/
def VerifyError.statusCode : VerifyError → Nat := fun _ => 400

deriving instance DecidableEq for Except

/-! ## EIP-712 typed-data message (`verification.py:17-47`, `client.py:145-175`)

The canonical message is modelled structurally: the `types` table, the
`primaryType`, and the ordered `domain` and `message` field lists, exactly
as the two Python dict literals spell them.  Each side's dict literal is
transcribed separately so that their equality is a theorem about the two
source sites, not a shared definition. -/

/-- A typed-data field value (string-like or integer-like). -/
inductive FieldVal where
  | s (v : String)
  | i (v : Int)
deriving DecidableEq

/-- A structured EIP-712 message: types table, primary type, ordered domain
and message components. -/
structure EIP712Message where
  types : List (String × List (String × String))
  primaryType : String
  domain : List (String × FieldVal)
  message : List (String × FieldVal)
deriving DecidableEq

/-- The typed-data message the verifier rebuilds from the authorization's
own fields (`verify_eip712_signature`, `verification.py:17-47`). -/
def verifierTypedMessage (payment_data : PaymentData) : EIP712Message :=
  { types :=
      [("EIP712Domain",
         [("name", "string"), ("version", "string"),
          ("chainId", "uint256"), ("verifyingContract", "address")]),
       ("TransferWithAuthorization",
         [("from", "address"), ("to", "address"), ("value", "uint256"),
          ("validBefore", "uint256"), ("nonce", "bytes32")])],
    primaryType := "TransferWithAuthorization",
    domain :=
      [("name", .s "USDC"), ("version", .s "2"),
       ("chainId", .i payment_data.chain_id),
       ("verifyingContract", .s payment_data.token)],
    message :=
      [("from", .s payment_data.from_address), ("to", .s payment_data.to_addr),
       ("value", .i payment_data.value),
       ("validBefore", .i payment_data.valid_before),
       ("nonce", .s payment_data.nonce)] }

/-- `verify_eip712_signature` (`verification.py:13-63`): recover the signer
over the rebuilt typed message and compare case-insensitively with the
claimed `from` address.  `recover` abstracts
`Account.recover_message(encode_typed_data(message), signature)`. -/
def verify_eip712_signature (recover : EIP712Message → String → String)
    (payment_data : PaymentData) : Bool :=
  lowerStr (recover (verifierTypedMessage payment_data) payment_data.signature)
    == lowerStr payment_data.from_address

/-! ## `verify_payment_requirements` (`verification.py:66-116`) -/

/-- `verify_payment_requirements`: expiry, recipient, token, chain-id, then
the scheme-dispatched amount check, failing fast with the first violated
check's error. -/
def verify_payment_requirements (payment_data : PaymentData) (required_amount : Frac)
    (required_token required_recipient : String) (required_chain_id : Int)
    (scheme : String) (current_time : Int) : Except VerifyError Unit :=
  if payment_data.valid_before < current_time then
    .error .paymentExpired
  else if lowerStr payment_data.to_addr ≠ lowerStr required_recipient then
    .error .recipientMismatch
  else if lowerStr payment_data.token ≠ lowerStr required_token then
    .error .tokenMismatch
  else if payment_data.chain_id ≠ required_chain_id then
    .error .chainMismatch
  else
    let payment_amount := payment_data.value
    let required_amount_wei := requiredAmountWei required_amount
    if scheme = "exact" then
      if payment_amount ≠ required_amount_wei then .error .amountMismatch else .ok ()
    else if scheme = "upto" then
      if payment_amount > required_amount_wei then .error .amountMismatch else .ok ()
    else .error .unknownScheme

/-! ## `X402Provider.verify_payment` (`provider.py:118-207`)

State is the `payment_cache` dict, keyed by `f"{signature}-{nonce}"`.
Analytics, webhooks and wallet bootstrap have no effect on the returned
verification or the cache and are omitted.  `recover` abstracts signature
recovery; `fresh_hash` abstracts the `secrets.token_hex(32)` mock
transaction hash generated on success. -/

/-- The provider configuration fields consumed by `verify_payment`. -/
structure ProviderConfig where
  cache_enabled : Bool
  custom_validation : Option (PaymentData → Bool)

/-- The provider's mutable verification state: the payment cache. -/
structure ProviderState where
  payment_cache : List (String × PaymentVerification)
deriving DecidableEq

/-- `cache_key = f"{payment_data.signature}-{payment_data.nonce}"`
(`provider.py:128`). -/
def cacheKey (payment_data : PaymentData) : String :=
  payment_data.signature ++ "-" ++ payment_data.nonce

/-- `X402Provider.verify_payment`: cache lookup first (a hit returns the
cached verification unchanged), then `verify_payment_requirements`, then
EIP-712 signature verification, then optional custom validation; on
success the fresh verification is stored in the cache. -/
def verify_payment (cfg : ProviderConfig) (recover : EIP712Message → String → String)
    (fresh_hash : String) (st : ProviderState) (payment_data : PaymentData)
    (requirement : PaymentRequirement) (now : Int) :
    Except VerifyError PaymentVerification × ProviderState :=
  match (if cfg.cache_enabled then List.lookup (cacheKey payment_data) st.payment_cache
         else none) with
  | some cached => (.ok cached, st)
  | none =>
    match verify_payment_requirements payment_data requirement.amount requirement.token
        requirement.recipient requirement.chain_id requirement.scheme now with
    | .error e => (.error e, st)
    | .ok _ =>
      if !verify_eip712_signature recover payment_data then
        (.error .signatureInvalid, st)
      else if !(match cfg.custom_validation with
                | some f => f payment_data
                | none => true) then
        (.error .customValidationFailed, st)
      else
        let verification : PaymentVerification := ⟨true, fresh_hash⟩
        (.ok verification,
         if cfg.cache_enabled then ⟨(cacheKey payment_data, verification) :: st.payment_cache⟩
         else st)

/-! ## `X402Middleware.dispatch` (`middleware.py:45-120`)

Only payment-relevant inputs appear: whether a route config matched, the
`X-Payment` header, the `pydantic` parse of the header (`parse h = none`
models `PaymentData.model_validate_json` raising `ValidationError`), and
the provider verification outcome.  `DispatchError.exc` models any
non-`X402Error` exception escaping the `try` block. -/

/-- The outcome of the middleware's `try` block body. -/
inductive DispatchError where
  | x402 (e : VerifyError)
  | exc
deriving DecidableEq

/-- The HTTP response produced by `dispatch`. -/
inductive DispatchResult where
  | next
  | http402
  | ok (confirmation : String)
  | errorJson (status : Nat) (code : String)
deriving DecidableEq

/-- `X402Middleware.dispatch`: no matched route passes through; a matched
route with no `X-Payment` header returns the 402 requirement; a header
that fails to parse raises `ValidationError`, caught by the generic
handler as a 500 `INTERNAL_ERROR` JSON response; an `X402Error` from
verification maps to its own status/code; an invalid verification raises
`PaymentRequiredError` (402, `PAYMENT_REQUIRED`); otherwise the request
proceeds and the confirmation hash is attached. -/
def dispatch (route_matched : Bool) (header : Option String)
    (parse : String → Option PaymentData)
    (verify : PaymentData → Except DispatchError PaymentVerification) : DispatchResult :=
  if !route_matched then .next
  else
    match header with
    | none => .http402
    | some h =>
      match parse h with
      | none => .errorJson 500 "INTERNAL_ERROR"
      | some payment_data =>
        match verify payment_data with
        | .error (.x402 e) => .errorJson e.statusCode e.code
        | .error .exc => .errorJson 500 "INTERNAL_ERROR"
        | .ok verification =>
          if !verification.valid then .errorJson 402 "PAYMENT_REQUIRED"
          else .ok verification.transaction_hash

/-! ## x402-langchain client (`x402_langchain/client.py`, `config.py`)

Spend counters and clock values are Python floats; they are modelled as
exact rationals (see the header note). -/

/-- `SpendingLimits` (`config.py`). -/
structure SpendingLimits where
  per_request : ℚ
  per_hour : ℚ
  per_day : ℚ

/-- The client's mutable spending state (`spent_today`, `spent_hour`,
`last_hour_reset`, `last_day_reset` on `X402Client`). -/
structure SpendState where
  spent_today : ℚ
  spent_hour : ℚ
  last_hour_reset : ℚ
  last_day_reset : ℚ
deriving DecidableEq

/-- `X402Client._check_spending_limits` (`client.py:192-218`): roll the
hourly/daily windows when strictly more than 3600 s / 86400 s have elapsed
(the resets persist on the instance even when the check then denies), then
test the per-request, hourly and daily limits. -/
def check_spending_limits (limits : SpendingLimits) (st : SpendState)
    (amount now : ℚ) : Bool × SpendState :=
  let st := if now - st.last_hour_reset > 3600 then
      { st with spent_hour := 0, last_hour_reset := now } else st
  let st := if now - st.last_day_reset > 86400 then
      { st with spent_today := 0, last_day_reset := now } else st
  if amount > limits.per_request then (false, st)
  else if st.spent_hour + amount > limits.per_hour then (false, st)
  else if st.spent_today + amount > limits.per_day then (false, st)
  else (true, st)

/-- `X402Client._update_spending` (`client.py:237-240`). -/
def update_spending (st : SpendState) (amount : ℚ) : SpendState :=
  { st with spent_hour := st.spent_hour + amount,
            spent_today := st.spent_today + amount }

/-- One evaluate/commit round of the Spend Controller as the client wires
it: run `_check_spending_limits`; on approval commit with
`_update_spending`, otherwise keep the (possibly window-rolled) state. -/
def spendStep (limits : SpendingLimits) (st : SpendState) (amount now : ℚ) :
    Bool × SpendState :=
  let r := check_spending_limits limits st amount now
  if r.1 then (true, update_spending r.2 amount) else (false, r.2)

/-- A sequence of evaluate/commit rounds. -/
def runSpend (limits : SpendingLimits) (st : SpendState)
    (ops : List (ℚ × ℚ)) : SpendState :=
  ops.foldl (fun s op => (spendStep limits s op.1 op.2).2) st

/-- The client configuration fields consumed by `fetch_with_payment` and
`_get_approval`. -/
structure ClientConfig where
  allowed_domains : Option (List String)
  blocked_domains : List String
  spending_limits : SpendingLimits
  auto_approve : Bool
  approval_callback : Option (String → ℚ → Bool)

/-- `X402Client._get_approval` (`client.py:220-235`). -/
def get_approval (cfg : ClientConfig) (url : String) (amount : ℚ) : Bool :=
  if cfg.auto_approve then true
  else match cfg.approval_callback with
    | some cb => cb url amount
    | none => true

/-- The typed-data message the client constructs and signs
(`_create_payment_authorization`, `client.py:145-175`). -/
def clientTypedMessage (address : String) (requirement : PaymentRequirement) :
    EIP712Message :=
  { types :=
      [("EIP712Domain",
         [("name", "string"), ("version", "string"),
          ("chainId", "uint256"), ("verifyingContract", "address")]),
       ("TransferWithAuthorization",
         [("from", "address"), ("to", "address"), ("value", "uint256"),
          ("validBefore", "uint256"), ("nonce", "bytes32")])],
    primaryType := "TransferWithAuthorization",
    domain :=
      [("name", .s "USDC"), ("version", .s "2"),
       ("chainId", .i requirement.chain_id),
       ("verifyingContract", .s requirement.token)],
    message :=
      [("from", .s address), ("to", .s requirement.recipient),
       ("value", .i (clientValueWei requirement.amount)),
       ("validBefore", .i requirement.expires_at),
       ("nonce", .s requirement.nonce)] }

/-- `X402Client._create_payment_authorization` (`client.py:138-190`):
convert the amount to minor units, sign the typed message, and assemble
the authorization from the requirement's fields (`value` is sent as
`str(value_wei)`, consumed back as `int(value)`). -/
def create_payment_authorization (sign : EIP712Message → String)
    (address : String) (requirement : PaymentRequirement) : PaymentAuthorization :=
  { from_address := address,
    to_addr := requirement.recipient,
    value := clientValueWei requirement.amount,
    token := requirement.token,
    chain_id := requirement.chain_id,
    nonce := requirement.nonce,
    valid_before := requirement.expires_at,
    signature := sign (clientTypedMessage address requirement) }

/-! ## The `X-Payment` wire round trip
(`x402_langchain/models.py:36-38` → `fast_x402/models.py:32-44`)

`to_header` serializes with `model_dump_json(by_alias=True)`, so each field
is written under its declared alias (`from`, `chainId`, `validBefore`) and
otherwise under its field name.  The provider parses the header with
`PaymentData.model_validate_json`; pydantic v2 accepts, per field, the
declared alias — only `from_address` has one (`from`) — or, because of
`populate_by_name`, the field name itself; a key missing for a required
field raises `ValidationError`.  The JSON object is modelled as its
key/value list; the wire `value` is the decimal string `str(value_wei)`,
carried here as its integer value per the data-model convention. -/

/-- `PaymentAuthorization.to_header()`: the JSON object written into the
`X-Payment` header, keyed by the model's aliases. -/
def to_header (a : PaymentAuthorization) : List (String × FieldVal) :=
  [("from", .s a.from_address), ("to", .s a.to_addr), ("value", .i a.value),
   ("token", .s a.token), ("chainId", .i a.chain_id), ("nonce", .s a.nonce),
   ("validBefore", .i a.valid_before), ("signature", .s a.signature)]

/-- Look up a string-valued key of a JSON object. -/
def lookupStr (k : String) (fields : List (String × FieldVal)) : Option String :=
  match List.lookup k fields with
  | some (.s v) => some v
  | _ => none

/-- Look up an integer-valued key of a JSON object. -/
def lookupInt (k : String) (fields : List (String × FieldVal)) : Option Int :=
  match List.lookup k fields with
  | some (.i v) => some v
  | _ => none

/-- `PaymentData.model_validate_json` (`fast_x402/models.py:32-44`) on a
JSON object: `from_address` accepts its alias `from` or (by
`populate_by_name`) its field name; every other field — `chain_id` and
`valid_before` included — declares no alias and accepts only its field
name.  Any missing required field raises `ValidationError` (`none`). -/
def paymentDataValidate (fields : List (String × FieldVal)) : Option PaymentData := do
  let from_address ← lookupStr "from" fields <|> lookupStr "from_address" fields
  let to_addr ← lookupStr "to" fields
  let value ← lookupInt "value" fields
  let token ← lookupStr "token" fields
  let chain_id ← lookupInt "chain_id" fields
  let nonce ← lookupStr "nonce" fields
  let valid_before ← lookupInt "valid_before" fields
  let signature ← lookupStr "signature" fields
  pure ⟨from_address, to_addr, value, token, chain_id, nonce, valid_before, signature⟩

/-- The observable outcome of one `fetch_with_payment` call.
`limitDeniedCrash` is the spending-limit-denied path: `client.py:82` reads
the nonexistent attribute `self.analytics`, so the denial escapes as an
`AttributeError` rather than the intended `SpendingLimitError`; either way
the call ends there with no further state change. -/
inductive FetchOutcome where
  | plain (status : Nat)
  | domainNotAllowed
  | domainBlocked
  | invalidRequirement
  | maxAmountExceeded
  | limitDeniedCrash
  | paymentDenied
  | paid (amount : ℚ)
  | paymentFailed (status : Nat)
  | timeoutErr
deriving DecidableEq

/-- `X402Client.fetch_with_payment` (`client.py:39-136`), with the two HTTP
round trips abstracted by their observed results: `status1`/`body1` are
the first response's status and (when 402) the parse of its body as a
`PaymentRequirement` (`none` models a body that `PaymentRequirement(**json)`
rejects); `status2` is the paid retry's status, `none` modelling
`httpx.TimeoutException`.  `domain` is `urlparse(url).netloc`.  An empty
`allowed_domains` list is falsy in Python, hence the `isEmpty` guard.
Spending is committed only on a 200 retry. -/
def fetch_with_payment (cfg : ClientConfig) (st : SpendState) (url domain : String)
    (status1 : Nat) (body1 : Option PaymentRequirement) (max_amount : Option ℚ)
    (status2 : Option Nat) (now : ℚ) : FetchOutcome × SpendState :=
  if (match cfg.allowed_domains with
      | some l => !l.isEmpty && !l.contains domain
      | none => false) then (.domainNotAllowed, st)
  else if cfg.blocked_domains.contains domain then (.domainBlocked, st)
  else if status1 ≠ 402 then (.plain status1, st)
  else
    match body1 with
    | none => (.invalidRequirement, st)
    | some requirement =>
      let amount : ℚ := requirement.amount.toRat
      if (match max_amount with
          | some m => decide (amount > m)
          | none => false) then (.maxAmountExceeded, st)
      else
        let r := check_spending_limits cfg.spending_limits st amount now
        if !r.1 then (.limitDeniedCrash, r.2)
        else if !get_approval cfg url amount then (.paymentDenied, r.2)
        else
          match status2 with
          | none => (.timeoutErr, r.2)
          | some s =>
            if s = 200 then (.paid amount, update_spending r.2 amount)
            else (.paymentFailed s, r.2)

/-! ## Sample concrete protocol data (shared by the concrete instantiations
below).  The requirement is the spec's end-to-end scenario: amount `"0.10"`
(value `1/10`), scheme `exact`; the payment matches it with
`value = 100000` and is signed by `"0xPayer"`. -/

/-- A requirement for amount `"0.10"` of token `"0xToken"` on chain 8453. -/
def sampleRequirement : PaymentRequirement :=
  { amount := ⟨1, 10⟩, token := "0xToken", recipient := "0xProvider",
    chain_id := 8453, nonce := "0xNonce1", expires_at := 1000, scheme := "exact" }

/-- A payment matching `sampleRequirement`, valid until 1000. -/
def samplePayment : PaymentData :=
  { from_address := "0xPayer", to_addr := "0xProvider", value := 100000,
    token := "0xToken", chain_id := 8453, nonce := "0xNonce1",
    valid_before := 1000, signature := "0xSig1" }

/-- A recovery oracle that attributes every signature to `"0xPayer"`. -/
def sampleRecover : EIP712Message → String → String := fun _ _ => "0xPayer"

/-! ## Theorems -/

/-- C9: the claimed signer/verifier wire compatibility is broken by an
alias slip: `to_header` writes `chainId`/`validBefore` (its declared
aliases, the documented `X-Payment` format), while `PaymentData` accepts
only `chain_id`/`valid_before` for those required fields, so validation
fails — `none` — for *every* authorization the client constructs, and the
verifier never rebuilds a message from a client-built header.  On the
fields themselves the two typed-data constructions are the identical
function — same type table, field ordering `{from, to, value, validBefore,
nonce}`, `primaryType` and domain `{name, version, chainId,
verifyingContract = token}` — which is exactly the bit-exactness the wire
slip breaks. -/
theorem typed_message_wire_roundtrip_fails (sign : EIP712Message → String)
    (address : String) (requirement : PaymentRequirement) :
    paymentDataValidate
        (to_header (create_payment_authorization sign address requirement)) = none ∧
    verifierTypedMessage
        { from_address := address, to_addr := requirement.recipient,
          value := clientValueWei requirement.amount, token := requirement.token,
          chain_id := requirement.chain_id, nonce := requirement.nonce,
          valid_before := requirement.expires_at,
          signature := sign (clientTypedMessage address requirement) }
      = clientTypedMessage address requirement :=
  ⟨rfl, rfl⟩

/-- C5: whenever `valid_before < current_time`, `verify_payment_requirements`
returns the expiry error, whatever every other field and the scheme are. -/
theorem verify_requirements_expiry_dominates (payment_data : PaymentData)
    (required_amount : Frac) (required_token required_recipient : String)
    (required_chain_id : Int) (scheme : String) (current_time : Int)
    (h : payment_data.valid_before < current_time) :
    verify_payment_requirements payment_data required_amount required_token
      required_recipient required_chain_id scheme current_time
      = .error .paymentExpired := by
  simp [verify_payment_requirements, h]

/-- Witness for C5: a concrete expired payment is rejected as expired. -/
theorem verify_requirements_expiry_dominates_witness :
    samplePayment.valid_before < 2000 ∧
    verify_payment_requirements samplePayment sampleRequirement.amount
      sampleRequirement.token sampleRequirement.recipient
      sampleRequirement.chain_id sampleRequirement.scheme 2000
      = .error .paymentExpired :=
  ⟨by decide,
   verify_requirements_expiry_dominates samplePayment sampleRequirement.amount
     sampleRequirement.token sampleRequirement.recipient
     sampleRequirement.chain_id sampleRequirement.scheme 2000 (by decide)⟩

/-- C4: with the earlier checks passing, the `exact` scheme accepts exactly
the payments whose `value` equals the requirement's converted minor-unit
amount, the `upto` scheme exactly those with `value` at most it, and every
violation is the amount-mismatch error. -/
theorem amount_check_scheme_semantics (payment_data : PaymentData)
    (required_amount : Frac) (required_token required_recipient : String)
    (required_chain_id : Int) (current_time : Int)
    (h1 : ¬ payment_data.valid_before < current_time)
    (h2 : lowerStr payment_data.to_addr = lowerStr required_recipient)
    (h3 : lowerStr payment_data.token = lowerStr required_token)
    (h4 : payment_data.chain_id = required_chain_id) :
    (verify_payment_requirements payment_data required_amount required_token
        required_recipient required_chain_id "exact" current_time
      = if payment_data.value = requiredAmountWei required_amount then .ok ()
        else .error .amountMismatch) ∧
    (verify_payment_requirements payment_data required_amount required_token
        required_recipient required_chain_id "upto" current_time
      = if payment_data.value ≤ requiredAmountWei required_amount then .ok ()
        else .error .amountMismatch) := by
  have hne : ("upto" : String) ≠ "exact" := by decide
  constructor
  · simp only [verify_payment_requirements, h1, h2, h3, h4, if_false, ite_false,
      if_true, ite_true, not_true, not_false_iff]
    by_cases hv : payment_data.value = requiredAmountWei required_amount <;>
      simp [hv, h1, h2, h3, h4]
  · simp only [verify_payment_requirements, h1, h2, h3, h4]
    by_cases hv : payment_data.value ≤ requiredAmountWei required_amount <;>
      simp [hv, h1, h2, h3, h4, hne, not_le, not_lt]

end X402

namespace X402

/-- Witness for C4: with the spec's figures — a requirement of 100 minor
units (`"0.0001"` of a 6-decimal token) — `exact` accepts 100 and rejects
99 and 101, `upto` accepts 50 and rejects 150, each rejection being the
amount-mismatch error. -/
theorem amount_check_scheme_semantics_witness :
    (¬ ({ samplePayment with value := 100 } : PaymentData).valid_before < 500) ∧
    (verify_payment_requirements { samplePayment with value := 100 } ⟨1, 10000⟩
        "0xToken" "0xProvider" 8453 "exact" 500
      = if ({ samplePayment with value := 100 } : PaymentData).value
            = requiredAmountWei ⟨1, 10000⟩ then .ok () else .error .amountMismatch) ∧
    verify_payment_requirements { samplePayment with value := 100 } ⟨1, 10000⟩
        "0xToken" "0xProvider" 8453 "exact" 500 = .ok () ∧
    verify_payment_requirements { samplePayment with value := 99 } ⟨1, 10000⟩
        "0xToken" "0xProvider" 8453 "exact" 500 = .error .amountMismatch ∧
    verify_payment_requirements { samplePayment with value := 101 } ⟨1, 10000⟩
        "0xToken" "0xProvider" 8453 "exact" 500 = .error .amountMismatch ∧
    verify_payment_requirements { samplePayment with value := 50 } ⟨1, 10000⟩
        "0xToken" "0xProvider" 8453 "upto" 500 = .ok () ∧
    verify_payment_requirements { samplePayment with value := 150 } ⟨1, 10000⟩
        "0xToken" "0xProvider" 8453 "upto" 500 = .error .amountMismatch := by
  refine ⟨by decide,
    (amount_check_scheme_semantics { samplePayment with value := 100 } ⟨1, 10000⟩
      "0xToken" "0xProvider" 8453 500 (by decide) (by decide) (by decide) (by decide)).1,
    ?_, ?_, ?_, ?_, ?_⟩ <;> decide

end X402

namespace X402

/-- C1 (amended): with caching enabled, re-presenting an authorization
whose `(signature, nonce)` cache key is already stored returns the cached
successful verification unchanged — the replay is *not* rejected, and no
nonce-replay error exists in the code. -/
theorem verify_payment_replay_returns_cached (cfg : ProviderConfig)
    (recover : EIP712Message → String → String) (fresh_hash : String)
    (st : ProviderState) (payment_data : PaymentData)
    (requirement : PaymentRequirement) (now : Int) (v : PaymentVerification)
    (henabled : cfg.cache_enabled = true)
    (hhit : List.lookup (cacheKey payment_data) st.payment_cache = some v) :
    verify_payment cfg recover fresh_hash st payment_data requirement now
      = (.ok v, st) := by
  simp [verify_payment, henabled, hhit]

/-- Witness for C1: a concrete cache hit returns the stored verification. -/
theorem verify_payment_replay_returns_cached_witness :
    verify_payment ⟨true, none⟩ sampleRecover "0xHash2"
        ⟨[(cacheKey samplePayment, ⟨true, "0xHash1"⟩)]⟩ samplePayment
        sampleRequirement 500
      = (.ok ⟨true, "0xHash1"⟩, ⟨[(cacheKey samplePayment, ⟨true, "0xHash1"⟩)]⟩) :=
  verify_payment_replay_returns_cached ⟨true, none⟩ sampleRecover "0xHash2"
    ⟨[(cacheKey samplePayment, ⟨true, "0xHash1"⟩)]⟩ samplePayment
    sampleRequirement 500 ⟨true, "0xHash1"⟩ rfl (by decide)

/-- Counterexample to C1 as stated: a first verification of the sample
payment succeeds (and is cached); the identical replay is *not* rejected —
it returns the same successful verification again instead of a
nonce-replay error. -/
theorem verify_payment_replay_not_rejected :
    (verify_payment ⟨true, none⟩ sampleRecover "0xHash1" ⟨[]⟩ samplePayment
        sampleRequirement 500).1 = .ok ⟨true, "0xHash1"⟩ ∧
    (verify_payment ⟨true, none⟩ sampleRecover "0xHash2"
        (verify_payment ⟨true, none⟩ sampleRecover "0xHash1" ⟨[]⟩ samplePayment
          sampleRequirement 500).2 samplePayment sampleRequirement 500).1
      = .ok ⟨true, "0xHash1"⟩ := by
  constructor <;> decide

/-- C2 (amended): a matched paid route whose `X-Payment` header fails to
parse is answered, before any verification step can contribute (`verify`
is universally quantified), with the structured generic 500
`INTERNAL_ERROR` JSON response — not with a distinct malformed-payment
error, and not by letting the exception escape. -/
theorem dispatch_malformed_header_before_business_checks (h : String)
    (parse : String → Option PaymentData)
    (verify : PaymentData → Except DispatchError PaymentVerification)
    (hbad : parse h = none) :
    dispatch true (some h) parse verify = .errorJson 500 "INTERNAL_ERROR" := by
  simp [dispatch, hbad]

/-- Witness for C2: a concrete unparseable header is answered with the 500
`INTERNAL_ERROR` response whatever the verifier would have said. -/
theorem dispatch_malformed_header_before_business_checks_witness :
    dispatch true (some "not json") (fun _ => none)
        (fun _ => .error (.x402 .paymentExpired))
      = .errorJson 500 "INTERNAL_ERROR" :=
  dispatch_malformed_header_before_business_checks "not json" (fun _ => none)
    (fun _ => .error (.x402 .paymentExpired)) rfl

/-- Counterexample to C2 as stated: the response to a malformed header is
byte-for-byte the middleware's catch-all internal-error response — the same
500 `INTERNAL_ERROR` produced when verification throws an arbitrary
non-x402 exception — so no distinct malformed-authorization error is
surfaced. -/
theorem dispatch_malformed_header_not_distinct :
    dispatch true (some "not json") (fun _ => none)
        (fun _ => .ok ⟨true, "0xHash1"⟩)
      = .errorJson 500 "INTERNAL_ERROR" ∧
    dispatch true (some "valid header") (fun _ => some samplePayment)
        (fun _ => .error .exc)
      = .errorJson 500 "INTERNAL_ERROR" := by
  constructor <;> decide

end X402

namespace X402

/-- The fail-fast cascade in the claimed check order — expiry, recipient,
token, chain id, amount by scheme, signature recovery — returning the
first failing check's error (specification-side definition for the C3
refinement statement). -/
def orderedVerdict (recover : EIP712Message → String → String)
    (payment_data : PaymentData) (requirement : PaymentRequirement)
    (now : Int) : Except VerifyError Unit :=
  if payment_data.valid_before < now then .error .paymentExpired
  else if lowerStr payment_data.to_addr ≠ lowerStr requirement.recipient then
    .error .recipientMismatch
  else if lowerStr payment_data.token ≠ lowerStr requirement.token then
    .error .tokenMismatch
  else if payment_data.chain_id ≠ requirement.chain_id then
    .error .chainMismatch
  else if (requirement.scheme = "exact" ∧
            payment_data.value ≠ requiredAmountWei requirement.amount) ∨
          (requirement.scheme = "upto" ∧
            requiredAmountWei requirement.amount < payment_data.value) then
    .error .amountMismatch
  else if ¬ verify_eip712_signature recover payment_data then
    .error .signatureInvalid
  else .ok ()

/-- C3 (amended): on a cache miss (the cache lookup, which comes *first*,
found nothing) and with no custom validation hook, the provider's verdict
is exactly the fail-fast cascade expiry → recipient → token → chain →
amount-by-scheme → signature: the earliest failing check determines the
reported error. -/
theorem verify_payment_first_failing_check_after_cache (cfg : ProviderConfig)
    (recover : EIP712Message → String → String) (fresh_hash : String)
    (st : ProviderState) (payment_data : PaymentData)
    (requirement : PaymentRequirement) (now : Int)
    (hmiss : cfg.cache_enabled = true →
      List.lookup (cacheKey payment_data) st.payment_cache = none)
    (hscheme : requirement.scheme = "exact" ∨ requirement.scheme = "upto")
    (hcustom : cfg.custom_validation = none) :
    (verify_payment cfg recover fresh_hash st payment_data requirement now).1
      = (orderedVerdict recover payment_data requirement now).map
          (fun _ => (⟨true, fresh_hash⟩ : PaymentVerification)) := by
  have hc : (if cfg.cache_enabled then
      List.lookup (cacheKey payment_data) st.payment_cache else none) = none := by
    by_cases h : cfg.cache_enabled <;> simp [h, hmiss]
  have hne : ("upto" : String) ≠ "exact" := by decide
  by_cases h1 : payment_data.valid_before < now
  · simp [Except.map, verify_payment, verify_payment_requirements, orderedVerdict, hc, h1]
  · by_cases h2 : lowerStr payment_data.to_addr = lowerStr requirement.recipient
    · by_cases h3 : lowerStr payment_data.token = lowerStr requirement.token
      · by_cases h4 : payment_data.chain_id = requirement.chain_id
        · rcases hscheme with hs | hs
          · by_cases h5 : payment_data.value = requiredAmountWei requirement.amount
            · cases h6 : verify_eip712_signature recover payment_data <;>
                simp [Except.map, verify_payment, verify_payment_requirements, orderedVerdict,
                  hc, h1, h2, h3, h4, hs, h5, h6, hcustom]
            · simp [Except.map, verify_payment, verify_payment_requirements, orderedVerdict,
                hc, h1, h2, h3, h4, hs, h5]
          · by_cases h5 : requiredAmountWei requirement.amount < payment_data.value
            · simp [Except.map, verify_payment, verify_payment_requirements, orderedVerdict,
                hc, h1, h2, h3, h4, hs, hne, h5]
            · cases h6 : verify_eip712_signature recover payment_data <;>
                simp [Except.map, verify_payment, verify_payment_requirements, orderedVerdict,
                  hc, h1, h2, h3, h4, hs, hne, not_lt.mpr (not_lt.mp h5), h5, h6,
                  hcustom, not_le]
        · simp [Except.map, verify_payment, verify_payment_requirements, orderedVerdict,
            hc, h1, h2, h3, h4]
      · simp [Except.map, verify_payment, verify_payment_requirements, orderedVerdict,
          hc, h1, h2, h3]
    · simp [Except.map, verify_payment, verify_payment_requirements, orderedVerdict, hc, h1, h2]

/-- Witness for C3: a payment that is simultaneously expired, misdirected
and mis-priced is reported with the *earliest* failing check's error —
expiry — by both the code and the cascade. -/
theorem verify_payment_first_failing_check_after_cache_witness :
    (verify_payment ⟨false, none⟩ sampleRecover "0xHash1" ⟨[]⟩
        { samplePayment with valid_before := 100, to_addr := "0xWrong", value := 5 }
        sampleRequirement 500).1
      = (orderedVerdict sampleRecover
          { samplePayment with valid_before := 100, to_addr := "0xWrong", value := 5 }
          sampleRequirement 500).map
          (fun _ => (⟨true, "0xHash1"⟩ : PaymentVerification)) ∧
    orderedVerdict sampleRecover
        { samplePayment with valid_before := 100, to_addr := "0xWrong", value := 5 }
        sampleRequirement 500 = .error .paymentExpired :=
  ⟨verify_payment_first_failing_check_after_cache ⟨false, none⟩ sampleRecover
      "0xHash1" ⟨[]⟩
      { samplePayment with valid_before := 100, to_addr := "0xWrong", value := 5 }
      sampleRequirement 500 (by simp) (Or.inl rfl) rfl,
   by decide⟩

/-- Counterexample to C3 as stated: the replay lookup is not the last
check but the first, and it does not fail with a replay error — for an
*expired* replayed payment the claimed order demands the expiry error,
while the code returns the cached successful verification. -/
theorem verify_payment_cache_hit_masks_expiry :
    ({ samplePayment with valid_before := 100 } : PaymentData).valid_before < 500 ∧
    (verify_payment ⟨true, none⟩ sampleRecover "0xHash2"
        ⟨[(cacheKey { samplePayment with valid_before := 100 }, ⟨true, "0xHash1"⟩)]⟩
        { samplePayment with valid_before := 100 } sampleRequirement 500).1
      = .ok ⟨true, "0xHash1"⟩ := by
  constructor <;> decide

end X402

namespace X402

/-- C6 (amended): the verifier's and the client's minor-unit conversions
are the identical function of the amount value, so the two sides always
compute the same integer; on an amount that survives the binary64 round
trip — here the documented `"0.10"` — the result is exactly the rational
value times `10^6`. -/
theorem to_wei_conversion_agreement :
    (∀ q : Frac, requiredAmountWei q = clientValueWei q) ∧
    requiredAmountWei ⟨1, 10⟩ = 100000 ∧
    Frac.toRat ⟨1, 10⟩ * 10 ^ 6 = (100000 : ℚ) :=
  ⟨fun _ => rfl, by decide, by norm_num [Frac.toRat]⟩

/-- Counterexample to C6 as stated: the amount string
`"9007199254.740994"` has six fractional digits, yet the conversion used
by both sides yields `9007199254740993` — one minor unit below the exact
rational value times `10^6` — because `float` collapses it onto a binary64
value whose shortest representation is `"9007199254.740993"`. -/
theorem to_wei_conversion_inexact :
    requiredAmountWei ⟨9007199254740994, 1000000⟩ = 9007199254740993 ∧
    Frac.toRat ⟨9007199254740994, 1000000⟩ * 10 ^ 6 = (9007199254740994 : ℚ) ∧
    (9007199254740993 : Int) ≠ 9007199254740994 :=
  ⟨by decide, by norm_num [Frac.toRat], by decide⟩

/-- After `_check_spending_limits`, each spend counter is either untouched
or reset to zero (the limit tests themselves never modify it). -/
lemma check_spent_cases (limits : SpendingLimits) (st : SpendState) (amount now : ℚ) :
    ((check_spending_limits limits st amount now).2.spent_hour = st.spent_hour ∨
     (check_spending_limits limits st amount now).2.spent_hour = 0) ∧
    ((check_spending_limits limits st amount now).2.spent_today = st.spent_today ∨
     (check_spending_limits limits st amount now).2.spent_today = 0) := by
  simp only [check_spending_limits]
  split_ifs <;> simp

/-- A spend round with a nonnegative amount keeps both counters
nonnegative. -/
lemma spendStep_nonneg (limits : SpendingLimits) (st : SpendState) (amount now : ℚ)
    (ha : 0 ≤ amount) (h1 : 0 ≤ st.spent_hour) (h2 : 0 ≤ st.spent_today) :
    0 ≤ (spendStep limits st amount now).2.spent_hour ∧
    0 ≤ (spendStep limits st amount now).2.spent_today := by
  simp only [spendStep, update_spending, check_spending_limits]
  split_ifs <;> simp_all <;>
    first
    | (constructor <;> linarith)
    | rfl
    | linarith

/-- Nonnegativity of the counters is preserved by any sequence of spend
rounds with nonnegative amounts. -/
lemma runSpend_nonneg (limits : SpendingLimits) (ops : List (ℚ × ℚ)) :
    ∀ st : SpendState, 0 ≤ st.spent_hour → 0 ≤ st.spent_today →
      (∀ p ∈ ops, 0 ≤ Prod.fst p) →
      0 ≤ (runSpend limits st ops).spent_hour ∧
      0 ≤ (runSpend limits st ops).spent_today := by
  induction ops with
  | nil => intro st h1 h2 _; simpa [runSpend] using ⟨h1, h2⟩
  | cons op rest ih =>
    intro st h1 h2 hops
    have ha : 0 ≤ op.1 := hops op (List.mem_cons_self op rest)
    have hstep := spendStep_nonneg limits st op.1 op.2 ha h1 h2
    simpa [runSpend] using
      ih (spendStep limits st op.1 op.2).2 hstep.1 hstep.2
        (fun p hp => hops p (List.mem_cons_of_mem _ hp))

/-- A committed spend round leaves both counters at or below their limits. -/
lemma spendStep_le (limits : SpendingLimits) (st : SpendState) (amount now : ℚ)
    (h : (spendStep limits st amount now).1 = true) :
    (spendStep limits st amount now).2.spent_hour ≤ limits.per_hour ∧
    (spendStep limits st amount now).2.spent_today ≤ limits.per_day := by
  revert h
  simp only [spendStep, update_spending, check_spending_limits]
  split_ifs <;> intro h <;> simp_all

/-- C7 (amended): for nonnegative amounts the spend counters stay
nonnegative through any sequence of evaluate/commit rounds, and — with no
hypothesis on the amounts — after every round whose decision succeeded and
committed, each counter is at or below its limit. -/
theorem spend_counters_bounded (limits : SpendingLimits) (st s : SpendState)
    (ops : List (ℚ × ℚ)) (a t : ℚ)
    (h1 : 0 ≤ st.spent_hour) (h2 : 0 ≤ st.spent_today)
    (hops : ∀ p ∈ ops, 0 ≤ Prod.fst p)
    (hcommit : (spendStep limits s a t).1 = true) :
    (0 ≤ (runSpend limits st ops).spent_hour ∧
     0 ≤ (runSpend limits st ops).spent_today) ∧
    ((spendStep limits s a t).2.spent_hour ≤ limits.per_hour ∧
     (spendStep limits s a t).2.spent_today ≤ limits.per_day) :=
  ⟨runSpend_nonneg limits ops st h1 h2 hops, spendStep_le limits s a t hcommit⟩

/-- Witness for C7: one committed round of `0.50` against limits
`(1, 10, 100)` from the zero state. -/
theorem spend_counters_bounded_witness :
    (0 ≤ (runSpend ⟨1, 10, 100⟩ ⟨0, 0, 0, 0⟩ [(1/2, 10)]).spent_hour ∧
     0 ≤ (runSpend ⟨1, 10, 100⟩ ⟨0, 0, 0, 0⟩ [(1/2, 10)]).spent_today) ∧
    ((spendStep ⟨1, 10, 100⟩ ⟨0, 0, 0, 0⟩ (1/2) 10).2.spent_hour ≤ (10 : ℚ) ∧
     (spendStep ⟨1, 10, 100⟩ ⟨0, 0, 0, 0⟩ (1/2) 10).2.spent_today ≤ (100 : ℚ)) :=
  spend_counters_bounded ⟨1, 10, 100⟩ ⟨0, 0, 0, 0⟩ ⟨0, 0, 0, 0⟩ [(1/2, 10)] (1/2) 10
    (by norm_num) (by norm_num)
    (by intro p hp; rw [List.mem_singleton] at hp; subst hp; norm_num)
    (by norm_num [spendStep, check_spending_limits])

/-- Counterexample to C7 as stated: nothing in the evaluate/commit pair
rejects a negative amount, so a single committed round with amount `-5`
drives the hourly counter below zero, refuting unconditional
non-negativity. -/
theorem spend_counters_negative_amount :
    (spendStep ⟨1, 10, 100⟩ ⟨0, 0, 0, 0⟩ (-5) 0).1 = true ∧
    (spendStep ⟨1, 10, 100⟩ ⟨0, 0, 0, 0⟩ (-5) 0).2.spent_hour < 0 := by
  norm_num [spendStep, check_spending_limits, update_spending]

/-- C8 (amended): each window resets — counter zeroed, window start moved
to `now` — exactly when strictly more than 3600 s (hour) / 86400 s (day)
have elapsed since the window start; with `per_hour = 1.00` and `0.60`
spent at `t0 = 0`, a `0.50` request at `t0 + 5 min` is denied and the same
request at `t0 + 61 min` is allowed after the reset. -/
theorem spend_window_rollover_strict (limits : SpendingLimits) (st : SpendState)
    (amount now : ℚ) :
    ((check_spending_limits limits st amount now).2.spent_hour
        = if now - st.last_hour_reset > 3600 then 0 else st.spent_hour) ∧
    ((check_spending_limits limits st amount now).2.last_hour_reset
        = if now - st.last_hour_reset > 3600 then now else st.last_hour_reset) ∧
    ((check_spending_limits limits st amount now).2.spent_today
        = if now - st.last_day_reset > 86400 then 0 else st.spent_today) ∧
    ((check_spending_limits limits st amount now).2.last_day_reset
        = if now - st.last_day_reset > 86400 then now else st.last_day_reset) ∧
    (check_spending_limits ⟨1, 1, 100⟩ ⟨3/5, 3/5, 0, 0⟩ (1/2) 300).1 = false ∧
    (check_spending_limits ⟨1, 1, 100⟩ ⟨3/5, 3/5, 0, 0⟩ (1/2) 3660).1 = true := by
  refine ⟨?_, ?_, ?_, ?_, ?_, ?_⟩
  · simp only [check_spending_limits]; split_ifs <;> simp_all
  · simp only [check_spending_limits]; split_ifs <;> simp_all
  · simp only [check_spending_limits]; split_ifs <;> simp_all
  · simp only [check_spending_limits]; split_ifs <;> simp_all
  · norm_num [check_spending_limits]
  · norm_num [check_spending_limits]

/-- Counterexample to C8 as stated: at exactly one hour of elapsed time
(`now - hourWindowStart = 3600`) the claim mandates a reset (and hence an
allowed `0.50` request), but the code's strict `> 3600` comparison leaves
the window un-reset: the counter still reads `0.60` and the request is
denied. -/
theorem spend_window_boundary_no_reset :
    (3600 : ℚ) - 0 ≥ 3600 ∧
    (check_spending_limits ⟨1, 1, 100⟩ ⟨3/5, 3/5, 0, 0⟩ (1/2) 3600).2.spent_hour = 3/5 ∧
    (check_spending_limits ⟨1, 1, 100⟩ ⟨3/5, 3/5, 0, 0⟩ (1/2) 3600).1 = false := by
  norm_num [check_spending_limits]

end X402

namespace X402

/-- C10: a `fetch_with_payment` attempt adds the payment amount to the
spend counters exactly on the paid-retry-returned-200 path — the committed
state is `_update_spending` applied after the (possibly window-rolling)
limit check — and on every other outcome each counter is either untouched
or merely window-reset to zero. -/
theorem spending_updated_only_on_200 (cfg : ClientConfig) (st : SpendState)
    (url domain : String) (status1 : Nat) (body1 : Option PaymentRequirement)
    (max_amount : Option ℚ) (status2 : Option Nat) (now : ℚ) :
    (∀ a, (fetch_with_payment cfg st url domain status1 body1 max_amount status2 now).1
        = .paid a →
      status2 = some 200 ∧
      ∃ requirement, body1 = some requirement ∧ a = requirement.amount.toRat ∧
        (fetch_with_payment cfg st url domain status1 body1 max_amount status2 now).2
          = update_spending
              (check_spending_limits cfg.spending_limits st a now).2 a) ∧
    ((∀ a, (fetch_with_payment cfg st url domain status1 body1 max_amount status2 now).1
        ≠ .paid a) →
      ((fetch_with_payment cfg st url domain status1 body1 max_amount status2 now).2.spent_hour
          = st.spent_hour ∨
       (fetch_with_payment cfg st url domain status1 body1 max_amount status2 now).2.spent_hour
          = 0) ∧
      ((fetch_with_payment cfg st url domain status1 body1 max_amount status2 now).2.spent_today
          = st.spent_today ∨
       (fetch_with_payment cfg st url domain status1 body1 max_amount status2 now).2.spent_today
          = 0)) := by
  rcases body1 with _ | req
  · constructor
    · intro a ha
      revert ha
      simp only [fetch_with_payment]
      split_ifs <;> intro ha <;> exact absurd ha (by simp)
    · intro _
      simp only [fetch_with_payment]
      split_ifs <;> exact ⟨Or.inl rfl, Or.inl rfl⟩
  · rcases status2 with _ | s2
    · constructor
      · intro a ha
        revert ha
        simp only [fetch_with_payment]
        split_ifs <;> intro ha <;> exact absurd ha (by simp)
      · intro _
        simp only [fetch_with_payment]
        split_ifs <;>
          first
          | exact ⟨Or.inl rfl, Or.inl rfl⟩
          | exact check_spent_cases cfg.spending_limits st req.amount.toRat now
    · by_cases hs : s2 = 200
      · subst hs
        constructor
        · intro a ha
          revert ha
          simp only [fetch_with_payment]
          split_ifs <;> intro ha <;>
            first
            | (have haa : req.amount.toRat = a := by simpa using ha
               subst haa
               refine ⟨?_, req, ?_, ?_, ?_⟩ <;> first | rfl | trivial)
            | exact absurd ha (by simp)
            | simp_all
        · intro hnp
          simp only [fetch_with_payment] at hnp ⊢
          split_ifs at hnp ⊢ <;>
            first
            | exact ⟨Or.inl rfl, Or.inl rfl⟩
            | exact check_spent_cases cfg.spending_limits st req.amount.toRat now
            | exact absurd rfl (by simpa using hnp req.amount.toRat)
            | simp_all
      · constructor
        · intro a ha
          revert ha
          simp only [fetch_with_payment]
          split_ifs <;> intro ha <;>
            first
            | exact absurd ha (by simp)
            | simp_all
        · intro _
          simp only [fetch_with_payment]
          split_ifs <;>
            first
            | exact ⟨Or.inl rfl, Or.inl rfl⟩
            | exact check_spent_cases cfg.spending_limits st req.amount.toRat now
            | simp_all


end X402

namespace X402

/-- A client configuration with no domain restrictions, auto-approval, and
limits `(1, 10, 100)`. -/
def sampleClientConfig : ClientConfig := ⟨none, [], ⟨1, 10, 100⟩, true, none⟩

/-- A concrete paid fetch: first response 402 with `sampleRequirement`
(amount `"0.10"`), paid retry 200, at `now = 10` from the zero spend
state. -/
def sampleFetch : FetchOutcome × SpendState :=
  fetch_with_payment sampleClientConfig ⟨0, 0, 0, 0⟩
    "https://api.example.com/data" "api.example.com" 402 (some sampleRequirement)
    none (some 200) 10

/-- Witness for C10: on the concrete paid run the outcome is
`paid 0.10` and both counters end at exactly `0.10`, as the instantiated
theorem dictates. -/
theorem spending_updated_only_on_200_witness :
    ((∀ a, sampleFetch.1 = .paid a →
        (some 200 : Option Nat) = some 200 ∧
        ∃ requirement, (some sampleRequirement : Option PaymentRequirement)
            = some requirement ∧
          a = requirement.amount.toRat ∧
          sampleFetch.2 = update_spending
            (check_spending_limits sampleClientConfig.spending_limits
              ⟨0, 0, 0, 0⟩ a 10).2 a) ∧
     ((∀ a, sampleFetch.1 ≠ .paid a) →
        (sampleFetch.2.spent_hour = (0 : ℚ) ∨ sampleFetch.2.spent_hour = 0) ∧
        (sampleFetch.2.spent_today = (0 : ℚ) ∨ sampleFetch.2.spent_today = 0))) ∧
    sampleFetch.1 = .paid (1/10) ∧
    sampleFetch.2.spent_hour = 1/10 ∧ sampleFetch.2.spent_today = 1/10 :=
  ⟨spending_updated_only_on_200 sampleClientConfig ⟨0, 0, 0, 0⟩
      "https://api.example.com/data" "api.example.com" 402 (some sampleRequirement)
      none (some 200) 10,
   by norm_num [sampleFetch, fetch_with_payment, check_spending_limits,
     update_spending, get_approval, sampleClientConfig, sampleRequirement,
     Frac.toRat]⟩

end X402
